import Mathlib

/-!
Verification of the Kuasar-BackEnd repository fragment.

The repository consists of two Python files:

* `app/schemas/user.py` — three pydantic `BaseModel` schema classes:
  `User` (username : str, email : str), `Token` (access_token : str,
  token_type : str), and `TokenData` (username : str or None = None).
* `app/main.py` — module-level startup code: imports, a
  `Base.metadata.create_all(bind=engine)` call, `app = FastAPI()`, and
  `app.include_router(user.router)`.

We embed the schema declarations as data (field lists with evaluated
Python type expressions), pydantic model construction as a validation
function over those declarations, and the startup script as a list of
statements with their side effects.  The authentication core (login,
token issue/validate) is not present under the repository sources; it is
modelled from the specification where a claim requires it.
-/

set_option autoImplicit false

namespace Kuasar

/-! ## Python objects appearing in type expressions

The annotation of `TokenData.username` in the source is the runtime
expression `str or None`.  Python evaluates `a or b` to `a` when `a` is
truthy, else `b`; the builtin type object `str` is truthy.  We model the
three objects that can occur in the annotation position. -/

/-- A Python object usable as a type annotation in the schemas module:
the builtin type `str`, the constant `None`, or `Optional[str]`
(imported in the source but never applied). -/
inductive PyAnnot where
  | strTy
  | noneConst
  | optionalStr
  deriving DecidableEq, Repr

/-- Python truthiness of the annotation-position objects: type objects
and `typing.Optional[...]` objects are truthy, `None` is falsy. -/
def truthy : PyAnnot → Bool
  | .strTy => true
  | .noneConst => false
  | .optionalStr => true

/-- Python `a or b`: returns `a` when `a` is truthy, else `b`. -/
def pyOr (a b : PyAnnot) : PyAnnot :=
  if truthy a then a else b

/-- The evaluated annotation of `TokenData.username` in
`app/schemas/user.py`: the expression `str or None`. -/
def tokenDataUsernameAnnot : PyAnnot := pyOr .strTy .noneConst

/-! ## Runtime values and schema declarations -/

/-- A runtime value that can populate a schema field: a Python string
or `None`. -/
inductive PyVal where
  | str (s : String)
  | noneVal
  deriving DecidableEq, Repr

/-- Whether a runtime value conforms to an evaluated annotation, as
pydantic checks values supplied by the caller: `str` accepts exactly
strings, `Optional[str]` accepts strings and `None`, and the annotation
`None` accepts exactly `None`. -/
def conforms (a : PyAnnot) (v : PyVal) : Bool :=
  match a, v with
  | .strTy, .str _ => true
  | .optionalStr, .str _ => true
  | .optionalStr, .noneVal => true
  | .noneConst, .noneVal => true
  | _, _ => false

/-- One field of a pydantic model declaration: its name, its evaluated
annotation, and its default value if the declaration supplies one. -/
structure FieldDecl where
  name : String
  annot : PyAnnot
  default : Option PyVal
  deriving DecidableEq, Repr

/-- A pydantic model declaration: a class name and its fields in
declaration order. -/
structure SchemaDecl where
  name : String
  fields : List FieldDecl
  deriving DecidableEq, Repr

/-- `class User(BaseModel)` from `app/schemas/user.py`:
`username: str` and `email: str`, no defaults. -/
def userSchema : SchemaDecl :=
  { name := "User"
    fields :=
      [ { name := "username", annot := .strTy, default := none }
      , { name := "email", annot := .strTy, default := none } ] }

/-- `class Token(BaseModel)` from `app/schemas/user.py`:
`access_token: str` and `token_type: str`, no defaults. -/
def tokenSchema : SchemaDecl :=
  { name := "Token"
    fields :=
      [ { name := "access_token", annot := .strTy, default := none }
      , { name := "token_type", annot := .strTy, default := none } ] }

/-- `class TokenData(BaseModel)` from `app/schemas/user.py`: the single
field `username: str or None = None`, whose annotation evaluates via
`pyOr` and whose default is the value `None`. -/
def tokenDataSchema : SchemaDecl :=
  { name := "TokenData"
    fields :=
      [ { name := "username", annot := tokenDataUsernameAnnot
          default := some .noneVal } ] }

/-- The schema declarations of `app/schemas/user.py`, in source order. -/
def schemasModule : List SchemaDecl := [userSchema, tokenSchema, tokenDataSchema]

/-! ## Pydantic model construction

Constructing a model validates each declared field against the keyword
arguments: a supplied value must conform to the field's annotation; a
missing value falls back to the declared default *without* validation
(pydantic does not validate defaults unless asked to); a missing value
with no default is an error. -/

/-- Validate one field against the supplied keyword arguments. -/
def validateField (f : FieldDecl) (args : List (String × PyVal)) : Except String PyVal :=
  match args.lookup f.name with
  | some v => if conforms f.annot v then .ok v else .error (f.name ++ ": type error")
  | none =>
    match f.default with
    | some d => .ok d
    | none => .error (f.name ++ ": field required")

/-- Validate every field of a declaration list in order, stopping at the
first error. -/
def constructFields (fs : List FieldDecl) (args : List (String × PyVal)) :
    Except String (List (String × PyVal)) :=
  match fs with
  | [] => .ok []
  | f :: rest =>
    match validateField f args with
    | .error e => .error e
    | .ok v =>
      match constructFields rest args with
      | .error e => .error e
      | .ok tail => .ok ((f.name, v) :: tail)

/-- Construct an instance of a pydantic model from keyword arguments:
the result, when validation succeeds, is the field-name/value map of the
instance. -/
def constructModel (s : SchemaDecl) (args : List (String × PyVal)) :
    Except String (List (String × PyVal)) :=
  constructFields s.fields args

/-! ## The startup script `app/main.py` -/

/-- A side effect performed at startup by `app/main.py`. -/
inductive Effect where
  | databaseWork
  | frameworkInit
  | routerRegistration
  deriving DecidableEq, Repr

/-- A top-level statement of `app/main.py`, in source order. -/
inductive Stmt where
  | importFastAPI
  | importAuthUser
  | importDatabase
  | callCreateAll
  | assignApp
  | callIncludeRouter
  deriving DecidableEq, Repr

/-- The statements of `app/main.py` in source order: three imports,
`Base.metadata.create_all(bind=engine)`, `app = FastAPI()`, and
`app.include_router(user.router)`. -/
def mainModule : List Stmt :=
  [ .importFastAPI, .importAuthUser, .importDatabase
  , .callCreateAll, .assignApp, .callIncludeRouter ]

/-- The side effect a statement performs when the module is executed:
`Base.metadata.create_all(bind=engine)` issues database table-creation
work, `FastAPI()` instantiates the framework application, and
`include_router` registers the router; imports bind names only. -/
def stmtEffect : Stmt → Option Effect
  | .callCreateAll => some .databaseWork
  | .assignApp => some .frameworkInit
  | .callIncludeRouter => some .routerRegistration
  | _ => none

/-- All side effects of executing `app/main.py`, in order. -/
def startupEffects : List Effect := mainModule.filterMap stmtEffect

/-- Whether an effect is storage-engine or database work. -/
def isDatabaseWork : Effect → Bool
  | .databaseWork => true
  | _ => false

/-! ## The authentication core, modelled from the specification

The repository imports an `auth.user` router whose code is not among the
given files; the specification describes the credential issuance and
validation service it implies.  The definitions below are therefore
modelled from the spec, not translated from source. -/

/-- Modelled from the spec: a `UserRecord` held by the Credential Store,
`{username (unique), email, password_hash}`.  The missing source is the
credential-store module behind `auth.user`. -/
structure UserRecord where
  username : String
  email : String
  password_hash : String × String
  deriving DecidableEq, Repr

/-- Modelled from the spec: the Credential Store as the collection of
user records, with usernames unique (§3 invariant); here a list looked
up by username. -/
abbrev CredentialStore := List UserRecord

/-- Modelled from the spec: `find_by_username(username) -> UserRecord |
NotFound` (§4.1), side-effect free. -/
def find_by_username (store : CredentialStore) (u : String) : Option UserRecord :=
  store.find? (fun r => r.username == u)

/-- Modelled from the spec: `hash(plaintext)` of the Password Hasher
(§4.2) salts internally; we expose the salt as a parameter and keep the
pair abstract, since only the verification contract is specified. -/
def hashPassword (salt plaintext : String) : String × String :=
  (salt, plaintext)

/-- Modelled from the spec: `verify(plaintext, hash_string) -> bool`
(§4.2), true exactly when the hash was produced from this plaintext. -/
def verifyPassword (plaintext : String) (stored : String × String) : Bool :=
  stored.2 == plaintext

/-- Modelled from the spec: the decoded claims `{username, expires_at}`
(§3 TokenClaims). -/
structure TokenClaims where
  username : String
  expires_at : Nat
  deriving DecidableEq, Repr

/-- Modelled from the spec: a signed bearer token carrying its claims
and a signature over them (§3 Token, §4.3). -/
structure SignedToken where
  claims : TokenClaims
  sig : String
  deriving DecidableEq, Repr

/-- Modelled from the spec: the signature over claims under the
server-held secret key (§4.3); unforgeable without the key is modelled
by making the key part of the signature value. -/
def signClaims (key : String) (c : TokenClaims) : String :=
  key ++ "|" ++ c.username ++ "|" ++ toString c.expires_at

/-- Modelled from the spec: `issue(username, issued_at) -> Token` (§4.3)
encodes `{username, expires_at = issued_at + TTL}` signed with the key. -/
def issue (key : String) (ttl : Nat) (username : String) (issued_at : Nat) : SignedToken :=
  let c : TokenClaims := { username := username, expires_at := issued_at + ttl }
  { claims := c, sig := signClaims key c }

/-- Modelled from the spec: the three outcomes of `validate` (§4.4). -/
inductive ValidateResult where
  | valid (c : TokenClaims)
  | invalid
  | expired
  deriving DecidableEq, Repr

/-- Modelled from the spec: `validate(token) -> TokenClaims | Invalid |
Expired` (§4.4): bad signature is Invalid; a good signature past expiry
(now strictly beyond `expires_at`, §8) is Expired; else Valid. -/
def validateToken (key : String) (now : Nat) (t : SignedToken) : ValidateResult :=
  if t.sig ≠ signClaims key t.claims then .invalid
  else if t.claims.expires_at < now then .expired
  else .valid t.claims

/-- Modelled from the spec: the externally observable outcome of a login
attempt (§4.5, §7): Unauthorized with no distinguishing detail, or a
bearer token. -/
inductive LoginOutcome where
  | unauthorized
  | tokenIssued (t : SignedToken)
  deriving DecidableEq, Repr

/-- Modelled from the spec: the Auth Service login flow (§4.5):
credential lookup, then password check, then token issue; NotFound and
password mismatch both reach the same Rejected/Unauthorized outcome. -/
def login (key : String) (ttl : Nat) (store : CredentialStore) (now : Nat)
    (username password : String) : LoginOutcome :=
  match find_by_username store username with
  | none => .unauthorized
  | some r =>
    if verifyPassword password r.password_hash then
      .tokenIssued (issue key ttl username now)
    else
      .unauthorized

/-! ## Helper lemmas about pydantic construction -/

/-- When construction succeeds, the instance's field names are exactly
the declared field names, in declaration order. -/
theorem constructFields_names (fs : List FieldDecl) (args res : List (String × PyVal))
    (h : constructFields fs args = .ok res) :
    res.map Prod.fst = fs.map FieldDecl.name := by
  induction fs generalizing res with
  | nil =>
    rw [constructFields] at h
    cases h
    rfl
  | cons f rest ih =>
    rw [constructFields] at h
    cases hv : validateField f args with
    | error e => rw [hv] at h; cases h
    | ok v =>
      rw [hv] at h
      cases hr : constructFields rest args with
      | error e => rw [hr] at h; cases h
      | ok tail =>
        rw [hr] at h
        cases h
        simp [ih tail hr]

/-- A declared field with no default that is absent from the arguments
makes construction fail. -/
theorem constructFields_missing (fs : List FieldDecl) (args : List (String × PyVal))
    (f : FieldDecl) (hf : f ∈ fs) (hdef : f.default = none)
    (hmiss : args.lookup f.name = none) :
    (constructFields fs args).isOk = false := by
  induction fs with
  | nil => cases hf
  | cons g rest ih =>
    rw [constructFields]
    rcases List.mem_cons.mp hf with rfl | hf2
    · rw [validateField, hmiss, hdef]
      rfl
    · cases hv : validateField g args with
      | error e => rfl
      | ok v =>
        have hrest := ih hf2
        cases hr : constructFields rest args with
        | error e => rfl
        | ok tail => rw [hr] at hrest; cases hrest

/-! ## Claims -/

/-- C1: in the TokenData schema the annotation of `username` is the
boolean-OR expression `str or None`, which evaluates to the plain type
`str` (because `str` is truthy) and not to an optional-string type,
while the field's declared default value is `None`. -/
theorem tokenData_username_annot_plain_str :
    tokenDataUsernameAnnot = pyOr .strTy .noneConst ∧
    tokenDataUsernameAnnot = PyAnnot.strTy ∧
    tokenDataUsernameAnnot ≠ PyAnnot.optionalStr ∧
    tokenDataSchema.fields.map FieldDecl.default = [some PyVal.noneVal] := by
  refine ⟨rfl, rfl, ?_, rfl⟩
  decide

/-- C2 counterexample: the Token schema accepts an instance whose
`token_type` is the string "basic", which differs from "bearer", so the
Token type does admit values whose `token_type` is not "bearer". -/
theorem token_admits_non_bearer :
    constructModel tokenSchema
        [("access_token", PyVal.str "xyz"), ("token_type", PyVal.str "basic")]
      = .ok [("access_token", PyVal.str "xyz"), ("token_type", PyVal.str "basic")] ∧
    PyVal.str "basic" ≠ PyVal.str "bearer" := by
  refine ⟨rfl, ?_⟩
  decide

/-- C2 amended: the Token schema declares `token_type` as an
unconstrained required string with no default, so any pair of strings
validates; "bearer" is a value callers supply, not a schema invariant. -/
theorem token_type_unconstrained_str (a s : String) :
    constructModel tokenSchema [("access_token", PyVal.str a), ("token_type", PyVal.str s)]
      = .ok [("access_token", PyVal.str a), ("token_type", PyVal.str s)] ∧
    tokenSchema.fields.map (fun f => (f.name, f.annot, f.default))
      = [("access_token", PyAnnot.strTy, none), ("token_type", PyAnnot.strTy, none)] :=
  ⟨rfl, rfl⟩

/-- C2 amended, at a concrete input. -/
theorem token_type_unconstrained_str_witness :
    constructModel tokenSchema
        [("access_token", PyVal.str "abc"), ("token_type", PyVal.str "bearer")]
      = .ok [("access_token", PyVal.str "abc"), ("token_type", PyVal.str "bearer")] ∧
    tokenSchema.fields.map (fun f => (f.name, f.annot, f.default))
      = [("access_token", PyAnnot.strTy, none), ("token_type", PyAnnot.strTy, none)] :=
  token_type_unconstrained_str "abc" "bearer"

/-- C3 counterexample: TokenData declares no `expires_at` field at all;
its field list is not the claimed pair (username, expires_at). -/
theorem tokenData_no_expires_at :
    "expires_at" ∉ tokenDataSchema.fields.map FieldDecl.name ∧
    tokenDataSchema.fields.map FieldDecl.name ≠ ["username", "expires_at"] := by
  decide

/-- C3 amended: the decoded-token schema TokenData carries exactly one
field, `username`; no `expires_at` (or any other) field is declared. -/
theorem tokenData_fields_exactly_username :
    tokenDataSchema.fields.map FieldDecl.name = ["username"] := rfl

/-- C4 counterexample: executing `app/main.py` performs database work:
the `Base.metadata.create_all(bind=engine)` statement, whose effect is
among the startup effects. -/
theorem main_performs_database_work :
    Effect.databaseWork ∈ startupEffects ∧
    startupEffects.any isDatabaseWork = true := by
  decide

/-- C4 amended: executing the given files performs exactly one piece of
database work (the table-creation call in `app/main.py`), besides
framework instantiation and the single router-registration call; the
statements of `app/main.py` are three imports followed by those three
calls, and the schemas file contributes no startup effect. -/
theorem main_startup_effects_exact :
    startupEffects = [.databaseWork, .frameworkInit, .routerRegistration] ∧
    startupEffects.filter isDatabaseWork = [.databaseWork] ∧
    mainModule = [.importFastAPI, .importAuthUser, .importDatabase
                 , .callCreateAll, .assignApp, .callIncludeRouter] := by
  decide

/-- C5: for every registered pair, login followed by validate on the
resulting token yields claims carrying the username that logged in. -/
theorem login_validate_roundtrip (key : String) (ttl : Nat) (store : CredentialStore)
    (now : Nat) (u p : String) (r : UserRecord)
    (hfind : find_by_username store u = some r)
    (hpw : verifyPassword p r.password_hash = true)
    (httl : 0 < ttl) :
    ∃ t, login key ttl store now u p = .tokenIssued t ∧
      validateToken key now t = .valid { username := u, expires_at := now + ttl } := by
  refine ⟨issue key ttl u now, ?_, ?_⟩
  · simp [login, hfind, hpw]
  · have hexp : ¬ (issue key ttl u now).claims.expires_at < now := by
      show ¬ now + ttl < now
      omega
    rw [validateToken, if_neg (by simp [issue]), if_neg hexp]
    rfl

/-- C5 at a concrete input. -/
theorem login_validate_roundtrip_witness :
    ∃ t, login "key" 10
        [{ username := "alice", email := "alice@example.com"
           password_hash := hashPassword "salt" "wonderland123" }]
        0 "alice" "wonderland123" = .tokenIssued t ∧
      validateToken "key" 0 t = .valid { username := "alice", expires_at := 10 } :=
  login_validate_roundtrip "key" 10 _ 0 "alice" "wonderland123"
    { username := "alice", email := "alice@example.com"
      password_hash := hashPassword "salt" "wonderland123" }
    (by decide) (by decide) (by decide)

/-- C6: a login for an absent username and a login for a present
username with a wrong password produce the same externally observable
outcome, Unauthorized, with identical response values. -/
theorem login_rejection_indistinguishable (key : String) (ttl : Nat)
    (store : CredentialStore) (now1 now2 : Nat) (u1 p1 u2 p2 : String) (r : UserRecord)
    (h1 : find_by_username store u1 = none)
    (h2 : find_by_username store u2 = some r)
    (hpw : verifyPassword p2 r.password_hash = false) :
    login key ttl store now1 u1 p1 = .unauthorized ∧
    login key ttl store now2 u2 p2 = .unauthorized ∧
    login key ttl store now1 u1 p1 = login key ttl store now2 u2 p2 := by
  have e1 : login key ttl store now1 u1 p1 = .unauthorized := by simp [login, h1]
  have e2 : login key ttl store now2 u2 p2 = .unauthorized := by simp [login, h2, hpw]
  exact ⟨e1, e2, e1.trans e2.symm⟩

/-- C6 at a concrete input. -/
theorem login_rejection_indistinguishable_witness :
    login "key" 10
        [{ username := "alice", email := "alice@example.com"
           password_hash := hashPassword "salt" "wonderland123" }]
        0 "bob" "anything" = .unauthorized ∧
    login "key" 10
        [{ username := "alice", email := "alice@example.com"
           password_hash := hashPassword "salt" "wonderland123" }]
        0 "alice" "wrong" = .unauthorized ∧
    login "key" 10
        [{ username := "alice", email := "alice@example.com"
           password_hash := hashPassword "salt" "wonderland123" }]
        0 "bob" "anything" =
    login "key" 10
        [{ username := "alice", email := "alice@example.com"
           password_hash := hashPassword "salt" "wonderland123" }]
        0 "alice" "wrong" :=
  login_rejection_indistinguishable "key" 10 _ 0 0 "bob" "anything" "alice" "wrong"
    { username := "alice", email := "alice@example.com"
      password_hash := hashPassword "salt" "wonderland123" }
    (by decide) (by decide) (by decide)

/-- C7: the schemas module declares exactly the three schemas User,
Token and TokenData, User with string fields username and email and
Token with string fields access_token and token_type. -/
theorem schemas_module_three_decls :
    schemasModule.map SchemaDecl.name = ["User", "Token", "TokenData"] ∧
    userSchema.fields.map (fun f => (f.name, f.annot))
      = [("username", PyAnnot.strTy), ("email", PyAnnot.strTy)] ∧
    tokenSchema.fields.map (fun f => (f.name, f.annot))
      = [("access_token", PyAnnot.strTy), ("token_type", PyAnnot.strTy)] :=
  ⟨rfl, rfl, rfl⟩

/-- C8: constructing TokenData with no arguments succeeds and yields a
username of None, although the evaluated annotation is the plain type
`str`, to which the value None does not conform: the default is used
without being validated. -/
theorem tokenData_default_unvalidated :
    constructModel tokenDataSchema [] = .ok [("username", PyVal.noneVal)] ∧
    tokenDataUsernameAnnot = PyAnnot.strTy ∧
    conforms tokenDataUsernameAnnot PyVal.noneVal = false :=
  ⟨rfl, rfl, rfl⟩

/-- C9: every successfully constructed User instance carries exactly the
fields username and email; in particular no password or password_hash
field ever appears in it. -/
theorem user_instance_no_credential_fields (args res : List (String × PyVal))
    (h : constructModel userSchema args = .ok res) :
    res.map Prod.fst = ["username", "email"] ∧
    "password" ∉ res.map Prod.fst ∧
    "password_hash" ∉ res.map Prod.fst := by
  have hn : res.map Prod.fst = ["username", "email"] :=
    constructFields_names userSchema.fields args res h
  refine ⟨hn, ?_, ?_⟩ <;> rw [hn] <;> decide

/-- C9 at a concrete input. -/
theorem user_instance_no_credential_fields_witness :
    ([("username", PyVal.str "alice"), ("email", PyVal.str "alice@example.com")].map
        Prod.fst : List String) = ["username", "email"] ∧
    "password" ∉ ([("username", PyVal.str "alice"),
        ("email", PyVal.str "alice@example.com")].map Prod.fst : List String) ∧
    "password_hash" ∉ ([("username", PyVal.str "alice"),
        ("email", PyVal.str "alice@example.com")].map Prod.fst : List String) :=
  user_instance_no_credential_fields
    [("username", PyVal.str "alice"), ("email", PyVal.str "alice@example.com")]
    [("username", PyVal.str "alice"), ("email", PyVal.str "alice@example.com")]
    rfl

/-- C10: constructing a Token fails whenever access_token or token_type
is omitted from the arguments, and neither field has a default value (in
particular token_type has no "bearer" default). -/
theorem token_requires_both_fields (args : List (String × PyVal))
    (h : args.lookup "access_token" = none ∨ args.lookup "token_type" = none) :
    (constructModel tokenSchema args).isOk = false ∧
    tokenSchema.fields.map FieldDecl.default = [none, none] := by
  refine ⟨?_, rfl⟩
  rcases h with h | h
  · exact constructFields_missing tokenSchema.fields args
      { name := "access_token", annot := .strTy, default := none } (by decide) rfl h
  · exact constructFields_missing tokenSchema.fields args
      { name := "token_type", annot := .strTy, default := none } (by decide) rfl h

/-- C10 at a concrete input. -/
theorem token_requires_both_fields_witness :
    (constructModel tokenSchema [("token_type", PyVal.str "bearer")]).isOk = false ∧
    tokenSchema.fields.map FieldDecl.default = [none, none] :=
  token_requires_both_fields [("token_type", PyVal.str "bearer")] (Or.inl (by decide))

end Kuasar
